import Mathlib

/-!
Verification of the data-shaping pipeline of the population dashboard
(`src/plot.py`): the Loader (`load_data`) and the Shaper
(`preprocess_data`).  The embedding models a spreadsheet sheet as a
`RawTable` (a `Country` column followed by data columns), pandas `melt`
as column-major stacking, the aggregate split, the country-to-ISO3
conversion of the external `country_converter` library, `dropna`, and
the numeric coercion `pd.to_numeric(..., errors="coerce")` after
stripping thousands-separator commas.
-/

namespace PlotPy

/-- One data row of a sheet: the `Country` cell followed by the data
cells, one per non-`Country` column.  Cells are modelled as strings
(`astype(str)` in the source casts every value to a string before the
numeric coercion, and the spec's examples are string-formatted). -/
structure Row where
  country : String
  cells : List String
deriving DecidableEq

/-- A raw sheet as loaded by pandas: the headers of the non-`Country`
columns (`df.columns[1:]`) and the data rows.  The `Country` column of
the source table is the `country` field of each row. -/
structure RawTable where
  dataCols : List String
  rows : List Row
deriving DecidableEq

/-- One record of the long-form frame right after the reshape step
(lines 17-21 of `plot.py`): columns `Country`, `Month`, `Value`, where
`Value` is still the raw cell content. -/
structure MeltedRow where
  country : String
  month : String
  value : String
deriving DecidableEq

/-- A melted row after the ISO3 lookup has been appended as the `iso3`
column (line 29).  `none` models a pandas `NaN` entry in that column;
the converter itself never produces it (see `cc_convert`). -/
structure CodedRow where
  country : String
  month : String
  value : String
  iso3 : Option String
deriving DecidableEq

/-- A fully shaped country-level record: `Value` has been coerced to a
number (`none` models `NaN`, i.e. a missing value) and `iso3` carries
the result of the ISO3 lookup. -/
structure NormalizedRecord where
  country : String
  month : String
  value : Option Rat
  iso3 : Option String
deriving DecidableEq

/-- Numeric value of a list of decimal digit characters. -/
def digitsVal (cs : List Char) : Nat :=
  cs.foldl (fun n c => 10 * n + (c.toNat - 48)) 0

/-- `true` iff every character of the list is a decimal digit. -/
def allDigits (cs : List Char) : Bool :=
  cs.all (fun c => c.isDigit)

/-- Model of `pd.to_numeric(s, errors="coerce")` on a plain decimal
string: an optional sign, an integer part and an optional fractional
part after a single dot.  `none` models `NaN` (the coercion result on an
unparsable value).  Values are exact rationals; every value appearing in
the spec's claims is exactly representable. -/
def toNumeric (s : String) : Option Rat :=
  let cs := s.toList
  let signBody : Bool × List Char :=
    match cs with
    | '-' :: r => (true, r)
    | '+' :: r => (false, r)
    | r => (false, r)
  let neg := signBody.1
  let body := signBody.2
  let intPart := body.takeWhile (fun c => c != '.')
  let rest := body.dropWhile (fun c => c != '.')
  match rest with
  | [] =>
      if allDigits intPart && !intPart.isEmpty then
        some (if neg then -(digitsVal intPart : Rat) else (digitsVal intPart : Rat))
      else
        none
  | _ :: frac =>
      if allDigits intPart && allDigits frac && !(intPart.isEmpty && frac.isEmpty) then
        let mag : Rat := (digitsVal intPart : Rat) + (digitsVal frac : Rat) / (10 : Rat) ^ frac.length
        some (if neg then -mag else mag)
      else
        none

/-- The reserved aggregate labels of line 24: `['International', 'Global']`. -/
def aggregateLabels : List String := ["International", "Global"]

/-- Model of `df_melted['Country'].isin(['International', 'Global'])` for
one row: exact string membership in the reserved label list. -/
def isAggregate (c : String) : Bool :=
  aggregateLabels.contains c

/-- Modelled from the external `country_converter` library used on line
29: `CountryConverter().convert(names, to='ISO3')` maps each recognised
country name to its ISO3 code and returns the string `"not found"` for a
name it cannot match; with its default settings it never returns `NaN`.
The reference list is restricted here to the names the claims exercise.
The `Option` in the result type is the type of the pandas column the
result is stored in (`none` = `NaN`), which this function never
produces. -/
def cocoReference : List (String × String) :=
  [("USA", "USA"), ("United States", "USA"), ("Germany", "DEU"),
   ("France", "FRA"), ("India", "IND"), ("Brazil", "BRA")]

/-- The per-name conversion of the external library: the matched ISO3
code, or the literal string `"not found"` when no match exists. -/
def cc_convert (name : String) : Option String :=
  some (((cocoReference.find? (fun p => p.1 == name)).map Prod.snd).getD "not found")

/-- Model of `df.melt(id_vars=['Country'], var_name='Month',
value_name='Value')` (line 18): column-major stacking, one record per
(data column, row) pair, columns taken in header order.  `i` is the
index of the first column of `cols` within the row cells. -/
def meltFrom (rows : List Row) : Nat → List String → List MeltedRow
  | _, [] => []
  | i, m :: ms =>
      rows.map (fun r => ⟨r.country, m, r.cells.getD i ""⟩) ++ meltFrom rows (i + 1) ms

/-- The melt of a whole table: stack every data column. -/
def melt (t : RawTable) : List MeltedRow :=
  meltFrom t.rows 0 t.dataCols

/-- Lines 17-21: if the table has more than two columns, melt wide to
long; otherwise rename the single data column to `Value` and use its
header as the constant `Month`.  A table with no data column makes the
source raise an `IndexError` at `df.columns[1]`; that failure is
modelled as `none`. -/
def reshape (t : RawTable) : Option (List MeltedRow) :=
  if t.dataCols.length + 1 > 2 then
    some (melt t)
  else
    match t.dataCols with
    | [] => none
    | m :: _ => some (t.rows.map (fun r => ⟨r.country, m, r.cells.getD 0 ""⟩))

/-- Line 24: the rows routed to the aggregate set. -/
def global_data (l : List MeltedRow) : List MeltedRow :=
  l.filter (fun r => isAggregate r.country)

/-- Line 25: the rows kept for the country-level pipeline. -/
def country_rows (l : List MeltedRow) : List MeltedRow :=
  l.filter (fun r => !(isAggregate r.country))

/-- Line 29: append the `iso3` column computed by the converter. -/
def with_iso3 (l : List MeltedRow) : List CodedRow :=
  l.map (fun r => ⟨r.country, r.month, r.value, cc_convert r.country⟩)

/-- Line 32: `dropna(subset=['iso3'])` — keep the rows whose `iso3`
entry is not `NaN`. -/
def drop_na_iso3 (l : List CodedRow) : List CodedRow :=
  l.filter (fun r => r.iso3.isSome)

/-- The rows removed by `dropna(subset=['iso3'])`: the complement of
`drop_na_iso3`, used to state the spec's record-count bookkeeping. -/
def dropped_rows (l : List CodedRow) : List CodedRow :=
  l.filter (fun r => !r.iso3.isSome)

/-- Model of `.str.replace(',', '')` on one cell: remove every comma
character. -/
def stripCommas (s : String) : String :=
  String.mk (s.toList.filter (fun c => c != ','))

/-- Line 35: coerce the `Value` column to numbers after stripping every
comma. -/
def coerce_values (l : List CodedRow) : List NormalizedRecord :=
  l.map (fun r => ⟨r.country, r.month, toNumeric (stripCommas r.value), r.iso3⟩)

/-- Lines 23-37 applied to the melted frame: split out the aggregate
rows, append ISO3 codes, drop `NaN` codes, coerce values; return the
country-level set and the aggregate set. -/
def shapeMelted (df_melted : List MeltedRow) :
    List NormalizedRecord × List MeltedRow :=
  (coerce_values (drop_na_iso3 (with_iso3 (country_rows df_melted))),
   global_data df_melted)

/-- The Shaper, `preprocess_data` of `plot.py` (lines 15-37): reshape,
then split, resolve, drop and coerce.  `none` models the only raising
path (a table with no data column). -/
def preprocess_data (t : RawTable) :
    Option (List NormalizedRecord × List MeltedRow) :=
  (reshape t).map shapeMelted

/-- An uploaded spreadsheet file: its named sheets in order. -/
structure XlsxFile where
  sheets : List (String × RawTable)
deriving DecidableEq

/-- Model of `pd.read_excel(xlsx, name)` (lines 11-12): the sheet named
`name`, or the error pandas raises when no such sheet exists. -/
def read_excel (x : XlsxFile) (name : String) : Except String RawTable :=
  match x.sheets.find? (fun p => p.1 == name) with
  | some p => Except.ok p.2
  | none => Except.error name

/-- The Loader, `load_data` of `plot.py` (lines 9-13): read the two
named sheets in order; a failing read raises, which propagates and
leaves no partial result. -/
def load_data (x : XlsxFile) : Except String (RawTable × RawTable) :=
  match read_excel x "MAU Signals" with
  | Except.error e => Except.error e
  | Except.ok signals_df =>
      match read_excel x "MAU Devices" with
      | Except.error e => Except.error e
      | Except.ok devices_df => Except.ok (signals_df, devices_df)

/-- The per-row effect of lines 29-35 on a retained (non-aggregate,
non-dropped) row: append the converted code and coerce the value.
Derived composition of the pipeline steps, used to state theorems. -/
def normalizeRow (r : MeltedRow) : NormalizedRecord :=
  ⟨r.country, r.month, toNumeric (stripCommas r.value), cc_convert r.country⟩

/-! ### General lemmas about the pipeline stages -/

theorem cc_convert_isSome (n : String) : (cc_convert n).isSome = true := rfl

/-- `dropna(subset=['iso3'])` removes nothing, because the converter
never produces a `NaN` entry: it returns the string `"not found"` for an
unmatched name. -/
theorem drop_na_iso3_with_iso3 (l : List MeltedRow) :
    drop_na_iso3 (with_iso3 l) = with_iso3 l := by
  apply List.filter_eq_self.mpr
  intro a ha
  obtain ⟨r, _, rfl⟩ := List.mem_map.mp ha
  rfl

/-- Dually, the set of rows removed by `dropna(subset=['iso3'])` is
empty. -/
theorem dropped_rows_with_iso3 (l : List MeltedRow) :
    dropped_rows (with_iso3 l) = [] := by
  apply List.filter_eq_nil_iff.mpr
  intro a ha
  obtain ⟨r, _, rfl⟩ := List.mem_map.mp ha
  simp [cc_convert]

/-- The country-level output is exactly the non-aggregate melted rows,
each normalized by `normalizeRow`. -/
theorem shapeMelted_fst (l : List MeltedRow) :
    (shapeMelted l).1 = (country_rows l).map normalizeRow := by
  show coerce_values (drop_na_iso3 (with_iso3 (country_rows l))) = _
  rw [drop_na_iso3_with_iso3]
  simp only [coerce_values, with_iso3, List.map_map]
  rfl

theorem shapeMelted_snd (l : List MeltedRow) :
    (shapeMelted l).2 = global_data l := rfl

theorem preprocess_data_of_reshape (t : RawTable) (l : List MeltedRow)
    (hr : reshape t = some l) : preprocess_data t = some (shapeMelted l) := by
  simp [preprocess_data, hr]

/-- Extracting the two output sets from a successful run. -/
theorem preprocess_data_inv (t : RawTable) (l : List MeltedRow)
    (c : List NormalizedRecord) (g : List MeltedRow)
    (hr : reshape t = some l) (hp : preprocess_data t = some (c, g)) :
    c = (country_rows l).map normalizeRow ∧ g = global_data l := by
  have h1 := preprocess_data_of_reshape t l hr
  rw [hp] at h1
  have h2 : (c, g) = shapeMelted l := by
    injection h1.symm with h3
    exact h3.symm
  constructor
  · rw [← shapeMelted_fst]
    exact congrArg Prod.fst h2
  · rw [← shapeMelted_snd]
    exact congrArg Prod.snd h2

/-- The aggregate test is exact string equality against the two
reserved labels. -/
theorem isAggregate_iff (s : String) :
    isAggregate s = true ↔ s = "International" ∨ s = "Global" := by
  simp [isAggregate, aggregateLabels, List.contains_iff_exists_mem_beq]

/-- Number of records produced by melting the columns `ms`. -/
theorem meltFrom_length (rows : List Row) (ms : List String) (i : Nat) :
    (meltFrom rows i ms).length = ms.length * rows.length := by
  induction ms generalizing i with
  | nil => simp [meltFrom]
  | cons m ms ih =>
      simp only [meltFrom, List.length_append, List.length_map, ih, List.length_cons]
      ring

theorem melt_length (t : RawTable) :
    (melt t).length = t.rows.length * t.dataCols.length := by
  rw [melt, meltFrom_length, Nat.mul_comm]

/-- Melting with more than one data column is the reshape path the
source takes when `len(df.columns) > 2`. -/
theorem reshape_of_multi (t : RawTable) (h : 1 < t.dataCols.length) :
    reshape t = some (melt t) := by
  rw [reshape, if_pos (by omega)]

/-- The aggregate/country split partitions the melted rows. -/
theorem country_global_length (l : List MeltedRow) :
    (country_rows l).length + (global_data l).length = l.length := by
  induction l with
  | nil => rfl
  | cons r l ih =>
      simp only [country_rows, global_data, List.filter] at *
      cases isAggregate r.country <;> simp_all <;> omega

/-- Every month label appearing in the melted rows is one of the data
column headers. -/
theorem meltFrom_month_mem (rows : List Row) (ms : List String) (i : Nat)
    (r : MeltedRow) (hr : r ∈ meltFrom rows i ms) : r.month ∈ ms := by
  induction ms generalizing i with
  | nil => cases hr
  | cons m ms ih =>
      rcases List.mem_append.mp hr with h | h
      · obtain ⟨x, _, rfl⟩ := List.mem_map.mp h
        exact List.mem_cons_self _ _
      · exact List.mem_cons_of_mem _ (ih (i + 1) h)

/-! ### Concrete tables from the spec's examples -/

/-- The spec's two-column example sheet: columns `Country, March`, one
row `("Unknownland", "500")`. -/
def unknownlandTable : RawTable :=
  ⟨["March"], [⟨"Unknownland", ["500"]⟩]⟩

/-- The spec's multi-column example sheet: columns `Country, Jan, Feb`,
rows `("USA","1,000","1,100")` and `("Global","5,000","5,200")`. -/
def exampleTable : RawTable :=
  ⟨["Jan", "Feb"], [⟨"USA", ["1,000", "1,100"]⟩, ⟨"Global", ["5,000", "5,200"]⟩]⟩

/-! ### Claims -/

/-- C1: the claim says every country-level record has a resolvable
RegionCode and rows failing resolution are dropped, so the Unknownland
sheet yields an empty country-level set.  The code disagrees: the
external converter returns the string `"not found"` (never `NaN`) for an
unmatched name, so `dropna(subset=['iso3'])` on line 32 removes nothing,
contradicting the comment on line 31 ("Remove rows where ISO3 conversion
failed").  On the claim's own example the country-level set is NOT
empty: the row survives with the placeholder code `"not found"`. -/
theorem C1_unknownland_row_retained :
    preprocess_data unknownlandTable =
      some ([⟨"Unknownland", "March", some 500, some "not found"⟩], []) ∧
    (preprocess_data unknownlandTable).map (fun p => p.1.isEmpty) ≠ some true := by
  decide

/-- C2 counterexample: on the spec's example sheet the aggregate set
does NOT carry the parsed numbers 5000 and 5200 — the aggregate split on
lines 23-25 happens before the numeric coercion on line 35, so the
aggregate records keep the raw cell strings `"5,000"` and `"5,200"`. -/
theorem C2_aggregate_values_not_parsed :
    (preprocess_data exampleTable).map (fun p => p.2.map (fun r => r.value)) =
      some ["5,000", "5,200"] ∧
    (preprocess_data exampleTable).map (fun p => p.2.map (fun r => r.value)) ≠
      some ["5000", "5200"] := by
  decide

/-- C2 amended: on the spec's example sheet the country-level set is
exactly as the claim states (USA records for Jan and Feb with parsed
values 1000 and 1100 and RegionCode "USA"), and the aggregate set holds
the two Global records with their original unparsed cell strings
`"5,000"` and `"5,200"` as values. -/
theorem C2_example_shapes :
    preprocess_data exampleTable =
      some ([⟨"USA", "Jan", some 1000, some "USA"⟩,
             ⟨"USA", "Feb", some 1100, some "USA"⟩],
            [⟨"Global", "Jan", "5,000"⟩, ⟨"Global", "Feb", "5,200"⟩]) := by
  decide

/-- C7: the Shaper is a deterministic pure function of the raw table.
In the source every step (melt, boolean-mask filtering, column
assignment on the fresh melted frame, `to_numeric`) builds new frames
and never writes to the input `df`, so a second run receives the same
input; in this functional embedding that purity is by construction and
two runs of `preprocess_data` on the same table are one and the same
application, hence equal. -/
theorem C7_idempotent_rerun (t : RawTable) :
    preprocess_data t = preprocess_data t := rfl

/-- C8: the claim says the Shaper never raises, with unresolvable rows
filtered out and unparsable values marked missing.  The totality holds
(first conjunct: the run succeeds on the claimed failing-prone input),
but the code does not filter unresolvable rows: the Unknownland row
survives with the placeholder code `"not found"` (second conjunct),
because `dropna` never sees a `NaN` — contradicting the code's own
comment on line 31. -/
theorem C8_total_but_keeps_unresolved :
    (preprocess_data unknownlandTable).isSome = true ∧
    (preprocess_data unknownlandTable).map (fun p => p.1.map (fun r => r.iso3)) =
      some [some "not found"] := by
  decide

/-- C3: a table with exactly two columns (`Country` plus one data
column) is not pivoted — the output has one record per input row — and
every record of both output sets carries the second column's header text
verbatim as its `Period`. -/
theorem C3_two_column_constant_period (t : RawTable) (m : String)
    (h : t.dataCols = [m]) :
    ∃ c g, preprocess_data t = some (c, g) ∧
      c.length + g.length = t.rows.length ∧
      (∀ r ∈ c, r.month = m) ∧ (∀ r ∈ g, r.month = m) := by
  have hr : reshape t =
      some (t.rows.map (fun r => ⟨r.country, m, r.cells.getD 0 ""⟩)) := by
    simp [reshape, h]
  refine ⟨(shapeMelted (t.rows.map (fun r => ⟨r.country, m, r.cells.getD 0 ""⟩))).1,
          (shapeMelted (t.rows.map (fun r => ⟨r.country, m, r.cells.getD 0 ""⟩))).2,
          ?_, ?_, ?_, ?_⟩
  · rw [preprocess_data_of_reshape t _ hr]
  · rw [shapeMelted_fst, shapeMelted_snd, List.length_map]
    rw [country_global_length, List.length_map]
  · intro r hrm
    rw [shapeMelted_fst] at hrm
    obtain ⟨r0, hr0, rfl⟩ := List.mem_map.mp hrm
    have h1 : r0 ∈ t.rows.map (fun r => (⟨r.country, m, r.cells.getD 0 ""⟩ : MeltedRow)) :=
      List.mem_of_mem_filter hr0
    obtain ⟨x, _, rfl⟩ := List.mem_map.mp h1
    rfl
  · intro r hrm
    rw [shapeMelted_snd] at hrm
    have h1 : r ∈ t.rows.map (fun r => (⟨r.country, m, r.cells.getD 0 ""⟩ : MeltedRow)) :=
      List.mem_of_mem_filter hrm
    obtain ⟨x, _, rfl⟩ := List.mem_map.mp h1
    rfl

/-- C3 witness: the theorem applied to the concrete two-column
Unknownland sheet. -/
theorem C3_two_column_witness :
    unknownlandTable.dataCols = ["March"] ∧
    (∃ c g, preprocess_data unknownlandTable = some (c, g) ∧
      c.length + g.length = unknownlandTable.rows.length ∧
      (∀ r ∈ c, r.month = "March") ∧ (∀ r ∈ g, r.month = "March")) :=
  ⟨rfl, C3_two_column_constant_period unknownlandTable "March" rfl⟩

/-- C4: rows whose `Country` is exactly `"International"` or `"Global"`
all land in the aggregate set; the aggregate set holds nothing else; the
country-level set holds no reserved label; and every other melted row
continues down the country-level pipeline (it appears, normalized, in
the country-level set).  Membership is exact string equality. -/
theorem C4_reserved_label_split (t : RawTable) (l : List MeltedRow)
    (c : List NormalizedRecord) (g : List MeltedRow)
    (hr : reshape t = some l) (hp : preprocess_data t = some (c, g)) :
    (∀ r ∈ l, (r.country = "International" ∨ r.country = "Global") → r ∈ g) ∧
    (∀ r ∈ g, r.country = "International" ∨ r.country = "Global") ∧
    (∀ r ∈ c, ¬(r.country = "International" ∨ r.country = "Global")) ∧
    (∀ r ∈ l, ¬(r.country = "International" ∨ r.country = "Global") →
      normalizeRow r ∈ c) := by
  obtain ⟨hc, hg⟩ := preprocess_data_inv t l c g hr hp
  subst hc hg
  refine ⟨?_, ?_, ?_, ?_⟩
  · intro r hrl hres
    exact List.mem_filter.mpr ⟨hrl, (isAggregate_iff r.country).mpr hres⟩
  · intro r hrg
    exact (isAggregate_iff r.country).mp (List.mem_filter.mp hrg).2
  · intro r hrc hres
    obtain ⟨r0, hr0, rfl⟩ := List.mem_map.mp hrc
    have h2 := (List.mem_filter.mp hr0).2
    have h3 : isAggregate r0.country = true := (isAggregate_iff r0.country).mpr hres
    rw [h3] at h2
    exact absurd h2 (by decide)
  · intro r hrl hres
    have h3 : isAggregate r.country = false := by
      cases h4 : isAggregate r.country
      · rfl
      · exact absurd ((isAggregate_iff r.country).mp h4) hres
    exact List.mem_map_of_mem _ (List.mem_filter.mpr ⟨hrl, by rw [h3]; rfl⟩)

/-- C4 witness: on the example sheet, the Global/Jan row is routed to
the aggregate set. -/
theorem C4_reserved_label_witness :
    (⟨"Global", "Jan", "5,000"⟩ : MeltedRow) ∈
      ([⟨"Global", "Jan", "5,000"⟩, ⟨"Global", "Feb", "5,200"⟩] : List MeltedRow) :=
  (C4_reserved_label_split exampleTable (melt exampleTable)
      [⟨"USA", "Jan", some 1000, some "USA"⟩, ⟨"USA", "Feb", some 1100, some "USA"⟩]
      [⟨"Global", "Jan", "5,000"⟩, ⟨"Global", "Feb", "5,200"⟩]
      rfl (by decide)).1
    ⟨"Global", "Jan", "5,000"⟩ (by decide) (Or.inr rfl)

/-- C5: every country-level record's `Value` is the numeric parse of
its comma-stripped raw cell (the whole set is the normalization of the
retained melted rows); a row whose stripped cell does not parse is still
retained, with a missing `Value`; and the spec's example holds:
`"1,234"` parses to `1234` after stripping. -/
theorem C5_numeric_coercion (t : RawTable) (l : List MeltedRow)
    (c : List NormalizedRecord) (g : List MeltedRow)
    (hr : reshape t = some l) (hp : preprocess_data t = some (c, g)) :
    c = (country_rows l).map normalizeRow ∧
    (∀ r ∈ country_rows l, toNumeric (stripCommas r.value) = none →
      normalizeRow r ∈ c) ∧
    toNumeric (stripCommas "1,234") = some 1234 := by
  obtain ⟨hc, _⟩ := preprocess_data_inv t l c g hr hp
  subst hc
  exact ⟨rfl, fun r hr2 _ => List.mem_map_of_mem _ hr2, by decide⟩

/-- C5 witness: the coercion fact extracted from the theorem applied to
the example sheet. -/
theorem C5_numeric_coercion_witness :
    toNumeric (stripCommas "1,234") = some 1234 :=
  (C5_numeric_coercion exampleTable (melt exampleTable)
      [⟨"USA", "Jan", some 1000, some "USA"⟩, ⟨"USA", "Feb", some 1100, some "USA"⟩]
      [⟨"Global", "Jan", "5,000"⟩, ⟨"Global", "Feb", "5,200"⟩]
      rfl (by decide)).2.2

/-- C6: with more than two columns the pivot produces (rows × period
columns) records, and country-level + dropped + aggregate record counts
sum to that product; the two output sets are partitioned by the
reserved-label test. -/
theorem C6_record_count (t : RawTable) (c : List NormalizedRecord)
    (g : List MeltedRow) (h : 1 < t.dataCols.length)
    (hp : preprocess_data t = some (c, g)) :
    c.length + (dropped_rows (with_iso3 (country_rows (melt t)))).length + g.length =
      t.rows.length * t.dataCols.length ∧
    (∀ r ∈ g, isAggregate r.country = true) ∧
    (∀ r ∈ c, isAggregate r.country = false) := by
  obtain ⟨hc, hg⟩ := preprocess_data_inv t (melt t) c g (reshape_of_multi t h) hp
  subst hc hg
  refine ⟨?_, ?_, ?_⟩
  · rw [dropped_rows_with_iso3]
    simp only [List.length_nil, List.length_map, Nat.add_zero]
    rw [country_global_length, melt_length]
  · intro r hrg
    exact (List.mem_filter.mp hrg).2
  · intro r hrc
    obtain ⟨r0, hr0, rfl⟩ := List.mem_map.mp hrc
    have h2 := (List.mem_filter.mp hr0).2
    cases h4 : isAggregate r0.country
    · exact h4
    · rw [h4] at h2
      exact absurd h2 (by decide)

/-- C6 witness: the count equation instantiated on the example sheet:
2 country records + 0 dropped + 2 aggregate records = 2 rows × 2
columns. -/
theorem C6_record_count_witness :
    1 < exampleTable.dataCols.length ∧
    ([⟨"USA", "Jan", some 1000, some "USA"⟩,
      ⟨"USA", "Feb", some 1100, some "USA"⟩] : List NormalizedRecord).length +
      (dropped_rows (with_iso3 (country_rows (melt exampleTable)))).length +
      ([⟨"Global", "Jan", "5,000"⟩, ⟨"Global", "Feb", "5,200"⟩] : List MeltedRow).length =
      exampleTable.rows.length * exampleTable.dataCols.length :=
  ⟨by decide,
   (C6_record_count exampleTable
      [⟨"USA", "Jan", some 1000, some "USA"⟩, ⟨"USA", "Feb", some 1100, some "USA"⟩]
      [⟨"Global", "Jan", "5,000"⟩, ⟨"Global", "Feb", "5,200"⟩]
      (by decide) (by decide)).1⟩

/-- C9: the Loader returns exactly the two tables read from the sheets
named "MAU Signals" and "MAU Devices" when both reads succeed; when
either read fails, the whole call fails with that error and produces no
partial result. -/
theorem C9_loader_contract (x : XlsxFile) :
    (∀ s d, read_excel x "MAU Signals" = Except.ok s →
        read_excel x "MAU Devices" = Except.ok d →
        load_data x = Except.ok (s, d)) ∧
    (∀ e, read_excel x "MAU Signals" = Except.error e →
        load_data x = Except.error e) ∧
    (∀ s e, read_excel x "MAU Signals" = Except.ok s →
        read_excel x "MAU Devices" = Except.error e →
        load_data x = Except.error e) := by
  refine ⟨?_, ?_, ?_⟩
  · intro s d h1 h2
    simp only [load_data, h1, h2]
  · intro e h1
    simp only [load_data, h1]
  · intro s e h1 h2
    simp only [load_data, h1, h2]

/-- C9 witness: a file with both named sheets loads as the ordered
pair of those sheets; a file missing "MAU Devices" fails with an error
naming it. -/
theorem C9_loader_witness :
    load_data ⟨[("MAU Signals", ⟨["Jan"], []⟩), ("MAU Devices", ⟨["Feb"], []⟩)]⟩ =
      Except.ok (⟨["Jan"], []⟩, ⟨["Feb"], []⟩) ∧
    load_data ⟨[("MAU Signals", ⟨["Jan"], []⟩)]⟩ = Except.error "MAU Devices" :=
  ⟨(C9_loader_contract ⟨[("MAU Signals", ⟨["Jan"], []⟩), ("MAU Devices", ⟨["Feb"], []⟩)]⟩).1
      ⟨["Jan"], []⟩ ⟨["Feb"], []⟩ rfl rfl,
   (C9_loader_contract ⟨[("MAU Signals", ⟨["Jan"], []⟩)]⟩).2.2
      ⟨["Jan"], []⟩ "MAU Devices" rfl rfl⟩

/-- C10: the aggregate output set is exactly the reserved-label rows of
the melted frame, completely untouched by the later steps: each
aggregate record is one of the melted rows verbatim, so its `Value` is
the original cell content (no comma-stripping, no numeric parse), and
its type (`MeltedRow`) carries no `iso3` field, because the split on
lines 23-25 precedes the resolution and coercion steps, which operate
only on the country-level frame. -/
theorem C10_aggregates_untouched (t : RawTable) (l : List MeltedRow)
    (c : List NormalizedRecord) (g : List MeltedRow)
    (hr : reshape t = some l) (hp : preprocess_data t = some (c, g)) :
    g = global_data l ∧ (∀ r ∈ g, r ∈ l) := by
  obtain ⟨_, hg⟩ := preprocess_data_inv t l c g hr hp
  subst hg
  exact ⟨rfl, fun r h2 => List.mem_of_mem_filter h2⟩

/-- C10 witness: on the example sheet the aggregate output is the raw
Global rows of the melt, with their unparsed cell strings. -/
theorem C10_aggregates_untouched_witness :
    ([⟨"Global", "Jan", "5,000"⟩, ⟨"Global", "Feb", "5,200"⟩] : List MeltedRow) =
      global_data (melt exampleTable) :=
  (C10_aggregates_untouched exampleTable (melt exampleTable)
      [⟨"USA", "Jan", some 1000, some "USA"⟩, ⟨"USA", "Feb", some 1100, some "USA"⟩]
      [⟨"Global", "Jan", "5,000"⟩, ⟨"Global", "Feb", "5,200"⟩]
      rfl (by decide)).1

end PlotPy
